import Mathlib

/-!
Verification development for the transcription-proxy repository.

The WordPress proxy flow (category resolution, media upload, post creation)
from src/unnamed/part_000 is embedded shallowly: each Express handler becomes
a pure Lean function from its request fields and an environment of upstream
fetch outcomes to the pair (list of upstream requests issued, handler result).
JavaScript library behaviour observed by the handlers (string truthiness,
base64 via Buffer, template interpolation of undefined, JSON body shapes)
is modelled explicitly below.
-/

namespace TProxy

/-! ### JavaScript value helpers -/

/-- Truthiness of a possibly-undefined JS string (`undefined` and `""` are falsy). -/
def jsTruthyS : Option String → Bool
  | none => false
  | some s => s != ""

/-- Truthiness of a possibly-undefined JS number (`undefined` and `0` are falsy). -/
def jsTruthyI : Option Int → Bool
  | none => false
  | some n => n != 0

/-- JS `x || fb` on a possibly-undefined string. -/
def jsOrS : Option String → String → String
  | none, fb => fb
  | some s, fb => if s == "" then fb else s

/-- Template-literal interpolation of a possibly-undefined JS string. -/
def jsToString : Option String → String
  | none => "undefined"
  | some s => s

/-- Template-literal interpolation of a possibly-undefined JS number. -/
def jsIntStr : Option Int → String
  | none => "undefined"
  | some n => toString n

/-- Model of `siteUrl.replace(/\/$/, '')`: drop exactly one trailing slash. -/
def stripTrailingSlash (s : String) : String :=
  if s.data.getLast? == some '/' then String.mk s.data.dropLast else s

/-- Character-list version of `String.startsWith` (kept kernel-friendly). -/
def startsWithChars : List Char → List Char → Bool
  | [], _ => true
  | _ :: _, [] => false
  | a :: as, b :: bs => a == b && startsWithChars as bs

/-- Model of JS `s.startsWith(pre)`. -/
def jsStartsWith (s pre : String) : Bool :=
  startsWithChars pre.data s.data

/-- Model of JS `s.toLowerCase()` (ASCII case folding). -/
def lowerStr (s : String) : String :=
  String.mk (s.data.map Char.toLower)

/-! ### UTF-8 and base64 (model of `Buffer.from(str).toString('base64')`) -/

/-- UTF-8 encoding of one character, as byte values. -/
def encodeCharUtf8 (c : Char) : List Nat :=
  let n := c.toNat
  if n < 128 then [n]
  else if n < 2048 then [192 + n / 64, 128 + n % 64]
  else if n < 65536 then [224 + n / 4096, 128 + n / 64 % 64, 128 + n % 64]
  else [240 + n / 262144, 128 + n / 4096 % 64, 128 + n / 64 % 64, 128 + n % 64]

/-- UTF-8 byte sequence of a string (model of `Buffer.from(s)`). -/
def utf8Bytes (s : String) : List Nat :=
  s.data.flatMap encodeCharUtf8

/-- The standard base64 alphabet. -/
def b64Alphabet : List Char :=
  ['A','B','C','D','E','F','G','H','I','J','K','L','M',
   'N','O','P','Q','R','S','T','U','V','W','X','Y','Z',
   'a','b','c','d','e','f','g','h','i','j','k','l','m',
   'n','o','p','q','r','s','t','u','v','w','x','y','z',
   '0','1','2','3','4','5','6','7','8','9','+','/']

/-- Base64 digit for a 6-bit value. -/
def b64Char (n : Nat) : Char := b64Alphabet.getD n 'A'

/-- Index of a character in the base64 alphabet. -/
def b64Index (c : Char) : Option Nat :=
  b64Alphabet.findIdx? (fun x => x == c)

/-- Encoding of one full 3-byte group into 4 base64 digits. -/
def encChunk3 (a b c : Nat) : List Char :=
  let n := a * 65536 + b * 256 + c
  [b64Char (n / 262144), b64Char (n / 4096 % 64), b64Char (n / 64 % 64), b64Char (n % 64)]

/-- RFC 4648 base64 encoding of a byte sequence. -/
def base64Encode : List Nat → List Char
  | [] => []
  | [a] => [b64Char (a / 4), b64Char (a % 4 * 16), '=', '=']
  | [a, b] => [b64Char (a / 4), b64Char (a % 4 * 16 + b / 16), b64Char (b % 16 * 4), '=']
  | a :: b :: c :: rest => encChunk3 a b c ++ base64Encode rest

/-- Decoding of one 4-digit base64 group (padding allowed). -/
def decodeChunk (c1 c2 c3 c4 : Char) : Option (List Nat) :=
  match b64Index c1, b64Index c2 with
  | some w, some x =>
    if c3 == '=' then
      if c4 == '=' then some [w * 4 + x / 16] else none
    else
      match b64Index c3 with
      | some y =>
        if c4 == '=' then some [w * 4 + x / 16, x % 16 * 16 + y / 4]
        else
          match b64Index c4 with
          | some z => some [w * 4 + x / 16, x % 16 * 16 + y / 4, y % 4 * 64 + z]
          | none => none
      | none => none
  | _, _ => none

/-- RFC 4648 base64 decoding (padding only in the final group). -/
def base64Decode : List Char → Option (List Nat)
  | [] => some []
  | c1 :: c2 :: c3 :: c4 :: rest =>
    if rest.isEmpty then decodeChunk c1 c2 c3 c4
    else if c3 == '=' || c4 == '=' then none
    else
      match decodeChunk c1 c2 c3 c4, base64Decode rest with
      | some bs, some rs => some (bs ++ rs)
      | _, _ => none
  | _ => none

/-- Model of `getWpAuthHeader` (src/unnamed/part_000, lines 111-114):
`Basic ` followed by the base64 of the UTF-8 bytes of `username:appPassword`. -/
def getWpAuthHeader (username appPassword : String) : String :=
  "Basic " ++ String.mk (base64Encode (utf8Bytes (username ++ ":" ++ appPassword)))

/-! ### Base64 round-trip lemmas -/

theorem b64Index_b64Char : ∀ n, n < 64 → b64Index (b64Char n) = some n := by decide

theorem b64Char_ne_pad : ∀ n, n < 64 → (b64Char n == '=') = false := by decide

theorem base64Encode_ne_nil : ∀ bs : List Nat, bs ≠ [] → base64Encode bs ≠ [] := by
  intro bs h
  match bs with
  | [a] => simp [base64Encode]
  | [a, b] => simp [base64Encode]
  | a :: b :: c :: rest => simp [base64Encode, encChunk3]

theorem base64_roundtrip :
    ∀ bs : List Nat, (∀ b ∈ bs, b < 256) → base64Decode (base64Encode bs) = some bs
  | [] => fun _ => rfl
  | [a] => fun h => by
      have ha : a < 256 := h a (by simp)
      have h1 : b64Index (b64Char (a / 4)) = some (a / 4) :=
        b64Index_b64Char _ (by omega)
      have h2 : b64Index (b64Char (a % 4 * 16)) = some (a % 4 * 16) :=
        b64Index_b64Char _ (by omega)
      simp [base64Encode, base64Decode, decodeChunk, h1, h2]
      omega
  | [a, b] => fun h => by
      have ha : a < 256 := h a (by simp)
      have hb : b < 256 := h b (by simp)
      have h1 : b64Index (b64Char (a / 4)) = some (a / 4) :=
        b64Index_b64Char _ (by omega)
      have h2 : b64Index (b64Char (a % 4 * 16 + b / 16)) = some (a % 4 * 16 + b / 16) :=
        b64Index_b64Char _ (by omega)
      have h3 : b64Index (b64Char (b % 16 * 4)) = some (b % 16 * 4) :=
        b64Index_b64Char _ (by omega)
      have h3' : (b64Char (b % 16 * 4) == '=') = false :=
        b64Char_ne_pad _ (by omega)
      simp [base64Encode, base64Decode, decodeChunk, h1, h2, h3, h3']
      omega
  | a :: b :: c :: rest => fun h => by
      have ha : a < 256 := h a (by simp)
      have hb : b < 256 := h b (by simp)
      have hc : c < 256 := h c (by simp)
      have ih := base64_roundtrip rest (fun x hx => h x (by simp [hx]))
      have h1 : b64Index (b64Char ((a * 65536 + b * 256 + c) / 262144)) =
          some ((a * 65536 + b * 256 + c) / 262144) :=
        b64Index_b64Char _ (by omega)
      have h2 : b64Index (b64Char ((a * 65536 + b * 256 + c) / 4096 % 64)) =
          some ((a * 65536 + b * 256 + c) / 4096 % 64) :=
        b64Index_b64Char _ (by omega)
      have h3 : b64Index (b64Char ((a * 65536 + b * 256 + c) / 64 % 64)) =
          some ((a * 65536 + b * 256 + c) / 64 % 64) :=
        b64Index_b64Char _ (by omega)
      have h4 : b64Index (b64Char ((a * 65536 + b * 256 + c) % 64)) =
          some ((a * 65536 + b * 256 + c) % 64) :=
        b64Index_b64Char _ (by omega)
      have h3' : (b64Char ((a * 65536 + b * 256 + c) / 64 % 64) == '=') = false :=
        b64Char_ne_pad _ (by omega)
      have h4' : (b64Char ((a * 65536 + b * 256 + c) % 64) == '=') = false :=
        b64Char_ne_pad _ (by omega)
      match hrest : rest with
      | [] =>
        simp [base64Encode, base64Decode, encChunk3, decodeChunk, h1, h2, h3, h4, h3', h4']
        omega
      | r :: rs =>
        have hne : base64Encode (r :: rs) ≠ [] := base64Encode_ne_nil _ (by simp)
        simp only [base64Encode, encChunk3]
        simp only [List.cons_append, List.nil_append, base64Decode]
        rw [if_neg (by simpa [List.isEmpty_iff] using hne)]
        rw [if_neg (by simp [h3', h4'])]
        simp [decodeChunk, h1, h2, h3, h4, h3', h4', ih]
        omega

theorem encodeCharUtf8_lt (c : Char) : ∀ b ∈ encodeCharUtf8 c, b < 256 := by
  intro b hb
  have hv : c.toNat < 1114112 := by
    have hbridge : c.toNat = c.val.toNat := rfl
    have := c.valid
    rcases this with h | h
    · have h' : c.val.toNat < 55296 := h
      omega
    · have h' : c.val.toNat < 1114112 := h.2
      omega
  unfold encodeCharUtf8 at hb
  by_cases h1 : c.toNat < 128
  · simp [h1] at hb; omega
  · by_cases h2 : c.toNat < 2048
    · simp [h1, h2] at hb
      rcases hb with hb | hb <;> omega
    · by_cases h3 : c.toNat < 65536
      · simp [h1, h2, h3] at hb
        rcases hb with hb | hb | hb <;> omega
      · simp [h1, h2, h3] at hb
        rcases hb with hb | hb | hb | hb <;> omega

theorem utf8Bytes_lt (s : String) : ∀ b ∈ utf8Bytes s, b < 256 := by
  intro b hb
  unfold utf8Bytes at hb
  simp only [List.mem_flatMap] at hb
  obtain ⟨c, _, hc⟩ := hb
  exact encodeCharUtf8_lt c b hc

/-! ### encodeURIComponent -/

/-- Hexadecimal digit character (uppercase), for percent-encoding. -/
def hexDigit (n : Nat) : Char :=
  if n < 10 then Char.ofNat (48 + n) else Char.ofNat (55 + n)

/-- Characters left unescaped by JS `encodeURIComponent`. -/
def isURIUnreserved (c : Char) : Bool :=
  (decide ('A' ≤ c) && decide (c ≤ 'Z')) ||
  (decide ('a' ≤ c) && decide (c ≤ 'z')) ||
  (decide ('0' ≤ c) && decide (c ≤ '9')) ||
  c == '-' || c == '_' || c == '.' || c == '!' || c == '~' || c == '*' ||
  c == Char.ofNat 39 || c == '(' || c == ')'

/-- Model of JS `encodeURIComponent`: percent-encode the UTF-8 bytes of every
character outside the unreserved set. -/
def encodeURIComponent (s : String) : String :=
  String.mk (s.data.flatMap (fun c =>
    if isURIUnreserved c then [c]
    else (encodeCharUtf8 c).flatMap (fun b => ['%', hexDigit (b / 16), hexDigit (b % 16)])))

/-! ### Requests, responses and upstream environments

Each handler is embedded as a function of its JSON-body fields and an
environment `env : Nat → FetchOutcome` giving the outcome of the n-th
`fetch` call the handler performs (a response, or a rejected promise for a
network-level error).  The handler returns the list of upstream requests it
issued, in order, together with the value passed to `res.json` / the error
response. -/

/-- The `redirect` option passed to node-fetch (`follow` is the default). -/
inductive RedirectMode where
  | follow
  | manual
deriving DecidableEq, Repr

/-- A JSON literal appearing in a request payload. -/
inductive JLit where
  | str (s : String)
  | num (n : Int)
  | arrI (l : List Int)
deriving DecidableEq, Repr

/-- The body attached to an upstream request.  `multipart gen fn ct` is a
`FormData` instance holding the image buffer under filename `fn` with declared
content type `ct`; `gen` numbers the `new FormData()` instance so that a
rebuilt body is distinguishable from a replayed one. -/
inductive ReqBody where
  | empty
  | multipart (gen : Nat) (filename : String) (contentType : String)
  | jsonPayload (fields : List (String × JLit))
deriving DecidableEq, Repr

/-- An upstream HTTP request as issued by a handler. -/
structure Request where
  method : String
  url : String
  auth : Option String
  contentType : Option String
  body : ReqBody
  redirect : RedirectMode
deriving DecidableEq, Repr

/-- A category object returned by the WordPress categories endpoint. -/
structure WpCat where
  id : Int
  name : String
deriving DecidableEq, Repr

/-- The body of an upstream response, as observed through `.json()` /
`JSON.parse`: a JSON array of categories, a JSON object with the fields the
handlers read (all optional), or text that is not valid JSON. -/
inductive WireBody where
  | arr (cats : List WpCat)
  | obj (message : Option String) (objId : Option Int) (sourceUrl : Option String)
        (link : Option String) (name : Option String)
  | notJson (raw : String)
deriving DecidableEq, Repr

/-- The `message` property of a parsed body (`undefined` on arrays). -/
def WireBody.msgField : WireBody → Option String
  | .obj m _ _ _ _ => m
  | _ => none

/-- The `id` property of a parsed body. -/
def WireBody.idField : WireBody → Option Int
  | .obj _ i _ _ _ => i
  | _ => none

/-- The `source_url` property of a parsed body. -/
def WireBody.sourceUrlField : WireBody → Option String
  | .obj _ _ u _ _ => u
  | _ => none

/-- The `link` property of a parsed body. -/
def WireBody.linkField : WireBody → Option String
  | .obj _ _ _ l _ => l
  | _ => none

/-- The `name` property of a parsed body. -/
def WireBody.nameField : WireBody → Option String
  | .obj _ _ _ _ n => n
  | _ => none

/-- An upstream HTTP response (status, `location` header, body). -/
structure Response where
  status : Nat
  location : Option String
  body : WireBody
deriving DecidableEq, Repr

/-- node-fetch `response.ok`: status in 200-299. -/
def Response.ok (r : Response) : Bool :=
  decide (200 ≤ r.status) && decide (r.status < 300)

/-- Outcome of one `await fetch(...)`: a response, or a thrown network error. -/
inductive FetchOutcome where
  | resp (r : Response)
  | netErr (msg : String)
deriving DecidableEq, Repr

/-- The status test of the manual redirect blocks
(src/unnamed/part_000, lines 238 and 348). -/
def isRedirectStatus (n : Nat) : Bool :=
  n == 301 || n == 302 || n == 307 || n == 308

/-- Message carried by the `SyntaxError` thrown by `JSON.parse` /
`response.json()` on malformed JSON (runtime-dependent text, modelled with a
fixed prefix). -/
def jsonParseError (raw : String) : String :=
  "Unexpected token in JSON: " ++ raw

/-- Message of the `TypeError` thrown by `categories.find(...)` when the
parsed body is not an array. -/
def findNotFunctionMsg : String :=
  "categories.find is not a function"

/-- Message of the `TypeError` thrown by `categoryName.toLowerCase()` when
`categoryName` is undefined. -/
def undefinedToLowerMsg : String :=
  "Cannot read properties of undefined (reading toLowerCase)"

/-! ### Category resolution (src/unnamed/part_000, lines 117-175) -/

/-- Result of the categories handler: `res.json({id, name})` (fields read off
a parsed body, hence possibly undefined) or `res.status(s).json({error})`. -/
inductive CatResult where
  | okJ (id : Option Int) (name : Option String)
  | err (status : Nat) (msg : String)
deriving DecidableEq, Repr

/-- The category search request (line 129): GET with the search term
interpolated, authorization header, default redirect mode. -/
def catSearchReq (baseUrl authHeader search : String) : Request :=
  { method := "GET", url := baseUrl ++ "/wp-json/wp/v2/categories?search=" ++ search,
    auth := some authHeader, contentType := none, body := .empty, redirect := .follow }

/-- `JSON.stringify({ name: categoryName })` — an undefined property is
omitted from the serialized object. -/
def catPayload : Option String → List (String × JLit)
  | some s => [("name", .str s)]
  | none => []

/-- The category creation request (line 149): POST JSON, authorization header,
default redirect mode. -/
def catCreateReq (baseUrl authHeader : String) (categoryName : Option String) : Request :=
  { method := "POST", url := baseUrl ++ "/wp-json/wp/v2/categories",
    auth := some authHeader, contentType := some "application/json",
    body := .jsonPayload (catPayload categoryName), redirect := .follow }

/-- Creation step of the categories handler (lines 149-169), reached when the
search found nothing usable.  `trace` is the list of requests already issued. -/
def catCreate (baseUrl authHeader : String) (categoryName : Option String)
    (trace : List Request) (outcome : FetchOutcome) : List Request × CatResult :=
  let req := catCreateReq baseUrl authHeader categoryName
  match outcome with
  | .netErr m => (trace ++ [req], .err 500 m)
  | .resp cr =>
    if cr.ok then
      match cr.body with
      | .notJson raw => (trace ++ [req], .err 500 (jsonParseError raw))
      | b => (trace ++ [req], .okJ b.idField b.nameField)
    else
      match cr.body with
      | .notJson raw => (trace ++ [req], .err 500 (jsonParseError raw))
      | b => (trace ++ [req], .err cr.status (jsOrS b.msgField "Failed to create category"))

/-- The `/api/wordpress/categories` handler (lines 117-175).  `env n` is the
outcome of the handler's n-th `fetch` (0 = search, 1 = create). -/
def categoriesFlow (siteUrl username appPassword categoryName : Option String)
    (env : Nat → FetchOutcome) : List Request × CatResult :=
  if jsTruthyS siteUrl && jsTruthyS username && jsTruthyS appPassword then
    let baseUrl := stripTrailingSlash (jsToString siteUrl)
    let authHeader := getWpAuthHeader (jsToString username) (jsToString appPassword)
    let searchReq := catSearchReq baseUrl authHeader (encodeURIComponent (jsToString categoryName))
    match env 0 with
    | .netErr m => ([searchReq], .err 500 m)
    | .resp sr =>
      if sr.ok then
        match sr.body with
        | .notJson raw => ([searchReq], .err 500 (jsonParseError raw))
        | .obj _ _ _ _ _ => ([searchReq], .err 500 findNotFunctionMsg)
        | .arr cats =>
          match cats, categoryName with
          | [], _ => catCreate baseUrl authHeader categoryName [searchReq] (env 1)
          | _ :: _, none => ([searchReq], .err 500 undefinedToLowerMsg)
          | c0 :: cs, some nm =>
            match (c0 :: cs).find? (fun c => lowerStr c.name == lowerStr nm) with
            | some c => ([searchReq], .okJ (some c.id) (some c.name))
            | none => catCreate baseUrl authHeader categoryName [searchReq] (env 1)
      else
        catCreate baseUrl authHeader categoryName [searchReq] (env 1)
  else
    ([], .err 400 "Missing WordPress credentials")

/-! ### Media upload (src/unnamed/part_000, lines 178-304) -/

/-- Result of the media handler: `res.json({id, url})` or an error response. -/
inductive MediaResult where
  | ok (id : Option Int) (url : Option String)
  | err (status : Nat) (msg : String)
deriving DecidableEq, Repr

/-- `safeTitle` (line 209): `(title || 'featured-image')` with every character
outside `[a-zA-Z0-9]` replaced by `-`, then `substring(0, 50)`. -/
def sanitizeChar (c : Char) : Char :=
  if (decide ('a' ≤ c) && decide (c ≤ 'z')) ||
     (decide ('A' ≤ c) && decide (c ≤ 'Z')) ||
     (decide ('0' ≤ c) && decide (c ≤ '9')) then c else '-'

/-- The sanitized, truncated title (line 209). -/
def safeTitle (title : Option String) : String :=
  String.mk (((jsOrS title "featured-image").data.map sanitizeChar).take 50)

/-- The upload filename (line 210): `` `${safeTitle}-featured.jpg` ``. -/
def mediaFilename (title : Option String) : String :=
  safeTitle title ++ "-featured.jpg"

/-- The source-image fetch (line 200): plain GET, explicit `redirect:
'follow'`, no credentials. -/
def mediaImageReq (imageUrl : String) : Request :=
  { method := "GET", url := imageUrl, auth := none, contentType := none,
    body := .empty, redirect := .follow }

/-- The primary upload request (line 227): POST multipart with `redirect:
'manual'`, authorization header, fresh FormData instance 0. -/
def mediaUploadReq (baseUrl authHeader filename : String) : Request :=
  { method := "POST", url := baseUrl ++ "/wp-json/wp/v2/media",
    auth := some authHeader, contentType := some "multipart/form-data",
    body := .multipart 0 filename "image/jpeg", redirect := .manual }

/-- The single redirect follow-up (line 245): POST to the `location` target,
authorization re-attached, FormData rebuilt (instance 1), default redirect
mode. -/
def mediaFollowReq (location authHeader filename : String) : Request :=
  { method := "POST", url := location, auth := some authHeader,
    contentType := some "multipart/form-data",
    body := .multipart 1 filename "image/jpeg", redirect := .follow }

/-- The alt-text/title patch request (line 279). -/
def mediaPatchReq (baseUrl authHeader : String) (mid : Option Int) (title : String) : Request :=
  { method := "POST", url := baseUrl ++ "/wp-json/wp/v2/media/" ++ jsIntStr mid,
    auth := some authHeader, contentType := some "application/json",
    body := .jsonPayload [("alt_text", .str title), ("title", .str title)],
    redirect := .follow }

/-- Tail of the media handler after redirect handling (lines 256-298): error
extraction on a non-ok final response, otherwise the best-effort metadata
patch (whose outcome is entirely ignored) and the success payload. -/
def mediaFinish (baseUrl authHeader : String) (title : Option String)
    (trace : List Request) (final : Response) (_patchOutcome : FetchOutcome) :
    List Request × MediaResult :=
  if final.ok then
    match final.body with
    | .notJson raw => (trace, .err 500 (jsonParseError raw))
    | b =>
      if jsTruthyS title && jsTruthyI b.idField then
        (trace ++ [mediaPatchReq baseUrl authHeader b.idField (jsToString title)],
         .ok b.idField b.sourceUrlField)
      else
        (trace, .ok b.idField b.sourceUrlField)
  else
    match final.body with
    | .notJson _ => (trace, .err final.status ("Failed to upload media: " ++ toString final.status))
    | b => (trace, .err final.status (jsOrS b.msgField "Failed to upload media"))

/-- The `/api/wordpress/media` handler (lines 178-304).  `env n` is the outcome
of the n-th `fetch` (0 = image fetch, 1 = upload, then the redirect follow-up
if taken, then the metadata patch). -/
def mediaFlow (siteUrl username appPassword imageUrl title : Option String)
    (env : Nat → FetchOutcome) : List Request × MediaResult :=
  if jsTruthyS siteUrl && jsTruthyS username && jsTruthyS appPassword && jsTruthyS imageUrl then
    if jsStartsWith (jsToString imageUrl) "http://" ||
       jsStartsWith (jsToString imageUrl) "https://" then
      let baseUrl := stripTrailingSlash (jsToString siteUrl)
      let authHeader := getWpAuthHeader (jsToString username) (jsToString appPassword)
      let imgReq := mediaImageReq (jsToString imageUrl)
      match env 0 with
      | .netErr m => ([imgReq], .err 500 m)
      | .resp imgResp =>
        if imgResp.ok then
          let filename := mediaFilename title
          let upReq := mediaUploadReq baseUrl authHeader filename
          match env 1 with
          | .netErr m => ([imgReq, upReq], .err 500 m)
          | .resp up1 =>
            if isRedirectStatus up1.status then
              match up1.location with
              | some loc =>
                let fReq := mediaFollowReq loc authHeader filename
                match env 2 with
                | .netErr m => ([imgReq, upReq, fReq], .err 500 m)
                | .resp up2 =>
                  mediaFinish baseUrl authHeader title [imgReq, upReq, fReq] up2 (env 3)
              | none => mediaFinish baseUrl authHeader title [imgReq, upReq] up1 (env 2)
            else
              mediaFinish baseUrl authHeader title [imgReq, upReq] up1 (env 2)
        else
          ([imgReq], .err 400 ("Failed to fetch image from URL: " ++ toString imgResp.status))
    else
      ([], .err 400 ("Invalid image URL format: " ++ jsToString imageUrl))
  else
    ([], .err 400 ("Missing required fields. imageUrl: " ++ jsOrS imageUrl "MISSING"))

/-! ### Post creation (src/unnamed/part_000, lines 307-393) -/

/-- Result of the posts handler: `res.json({id, link, adminLink})` or an error
response. -/
inductive PostResult where
  | ok (id : Option Int) (link : Option String) (adminLink : String)
  | err (status : Nat) (msg : String)
deriving DecidableEq, Repr

/-- `postData` assembly (lines 320-332): fixed draft status, then
`featured_media` only when `featuredImageId` is truthy, then `categories:
[categoryId]` only when `categoryId` is truthy. -/
def buildPostData (title content : String) (featuredImageId categoryId : Option Int) :
    List (String × JLit) :=
  [("title", .str title), ("content", .str content), ("status", .str "draft")]
  ++ (if jsTruthyI featuredImageId then [("featured_media", .num (featuredImageId.getD 0))] else [])
  ++ (if jsTruthyI categoryId then [("categories", .arrI [categoryId.getD 0])] else [])

/-- The primary post request (line 334): POST JSON, `redirect: 'manual'`. -/
def postCreateReq (baseUrl authHeader : String) (postData : List (String × JLit)) : Request :=
  { method := "POST", url := baseUrl ++ "/wp-json/wp/v2/posts",
    auth := some authHeader, contentType := some "application/json",
    body := .jsonPayload postData, redirect := .manual }

/-- The single redirect follow-up (line 353): POST to the `location` target,
authorization re-attached, payload re-serialized, default redirect mode. -/
def postFollowReq (location authHeader : String) (postData : List (String × JLit)) : Request :=
  { method := "POST", url := location, auth := some authHeader,
    contentType := some "application/json",
    body := .jsonPayload postData, redirect := .follow }

/-- Tail of the posts handler after redirect handling (lines 364-387). -/
def postsFinish (baseUrl : String) (trace : List Request) (final : Response) :
    List Request × PostResult :=
  if final.ok then
    match final.body with
    | .notJson raw => (trace, .err 500 (jsonParseError raw))
    | b =>
      (trace, .ok b.idField b.linkField
        (baseUrl ++ "/wp-admin/post.php?post=" ++ jsIntStr b.idField ++ "&action=edit"))
  else
    match final.body with
    | .notJson _ => (trace, .err final.status ("Failed to create post: " ++ toString final.status))
    | b => (trace, .err final.status (jsOrS b.msgField "Failed to create post"))

/-- The `/api/wordpress/posts` handler (lines 307-393).  `env n` is the outcome
of the n-th `fetch` (0 = create, 1 = redirect follow-up if taken). -/
def postsFlow (siteUrl username appPassword title content : Option String)
    (featuredImageId categoryId : Option Int)
    (env : Nat → FetchOutcome) : List Request × PostResult :=
  if jsTruthyS siteUrl && jsTruthyS username && jsTruthyS appPassword &&
     jsTruthyS title && jsTruthyS content then
    let baseUrl := stripTrailingSlash (jsToString siteUrl)
    let authHeader := getWpAuthHeader (jsToString username) (jsToString appPassword)
    let postData := buildPostData (jsToString title) (jsToString content) featuredImageId categoryId
    let req := postCreateReq baseUrl authHeader postData
    match env 0 with
    | .netErr m => ([req], .err 500 m)
    | .resp r1 =>
      if isRedirectStatus r1.status then
        match r1.location with
        | some loc =>
          let fReq := postFollowReq loc authHeader postData
          match env 1 with
          | .netErr m => ([req, fReq], .err 500 m)
          | .resp r2 => postsFinish baseUrl [req, fReq] r2
        | none => postsFinish baseUrl [req] r1
      else
        postsFinish baseUrl [req] r1
  else
    ([], .err 400 "Missing required fields")

/-! ## Concrete fixtures used by witnesses and counterexamples -/

/-- A concrete 403 response with a non-JSON body, used as a test fixture. -/
def resp403 : Response :=
  { status := 403, location := none, body := .notJson "forbidden" }

/-- A test environment whose first fetch yields `resp403`. -/
def env403 : Nat → FetchOutcome :=
  fun n => if n = 0 then .resp resp403 else .netErr "x"

/-- A test environment where every fetch rejects with a network error. -/
def envDown : Nat → FetchOutcome := fun _ => .netErr "down"

/-- A concrete 200 response used as an image-fetch fixture. -/
def imgRespOk : Response :=
  { status := 200, location := none, body := .notJson "bytes" }

/-! ## Helper lemmas -/

/-- Whatever the outcome of the creation fetch, the creation step issues
exactly the create request after the requests already traced. -/
theorem catCreate_trace (b a : String) (n : Option String) (tr : List Request)
    (o : FetchOutcome) :
    (catCreate b a n tr o).1 = tr ++ [catCreateReq b a n] := by
  rcases o with r | m
  · simp only [catCreate]
    split <;> split <;> rfl
  · rfl

/-- The categories handler issues at most the search request followed by the
create request, in that order. -/
theorem categoriesFlow_trace_cases
    (siteUrl username appPassword categoryName : Option String) (env : Nat → FetchOutcome) :
    (categoriesFlow siteUrl username appPassword categoryName env).1 = [] ∨
    (categoriesFlow siteUrl username appPassword categoryName env).1 =
      [catSearchReq (stripTrailingSlash (jsToString siteUrl))
        (getWpAuthHeader (jsToString username) (jsToString appPassword))
        (encodeURIComponent (jsToString categoryName))] ∨
    (categoriesFlow siteUrl username appPassword categoryName env).1 =
      [catSearchReq (stripTrailingSlash (jsToString siteUrl))
        (getWpAuthHeader (jsToString username) (jsToString appPassword))
        (encodeURIComponent (jsToString categoryName)),
       catCreateReq (stripTrailingSlash (jsToString siteUrl))
        (getWpAuthHeader (jsToString username) (jsToString appPassword)) categoryName] := by
  unfold categoriesFlow
  repeat' first
  | (left; rfl)
  | (right; left; rfl)
  | (right; right; rw [catCreate_trace])
  | rfl
  | split

/-- The media finish step either leaves the trace unchanged or appends exactly
one request (the metadata patch). -/
theorem mediaFinish_trace (b a : String) (t : Option String) (tr : List Request)
    (f : Response) (o : FetchOutcome) :
    (mediaFinish b a t tr f o).1 = tr ∨ ∃ p, (mediaFinish b a t tr f o).1 = tr ++ [p] := by
  unfold mediaFinish
  repeat' first
  | (left; rfl)
  | (right; exact ⟨_, rfl⟩)
  | split

/-- The posts finish step never issues further requests. -/
theorem postsFinish_trace (b : String) (tr : List Request) (f : Response) :
    (postsFinish b tr f).1 = tr := by
  unfold postsFinish
  split <;> split <;> rfl

/-- Past validation and a successful image fetch, the second request traced by
the media handler is always the primary upload request. -/
theorem mediaFlow_upload_req
    (siteUrl username appPassword imageUrl title : Option String) (env : Nat → FetchOutcome)
    (hsu : jsTruthyS siteUrl = true) (hun : jsTruthyS username = true)
    (hpw : jsTruthyS appPassword = true) (hiu : jsTruthyS imageUrl = true)
    (hurl : (jsStartsWith (jsToString imageUrl) "http://" ||
             jsStartsWith (jsToString imageUrl) "https://") = true)
    (imgR : Response) (h0 : env 0 = .resp imgR) (himg : imgR.ok = true) :
    ((mediaFlow siteUrl username appPassword imageUrl title env).1)[1]? =
      some (mediaUploadReq (stripTrailingSlash (jsToString siteUrl))
        (getWpAuthHeader (jsToString username) (jsToString appPassword))
        (mediaFilename title)) := by
  simp only [mediaFlow, hsu, hun, hpw, hiu, Bool.and_self, if_true, hurl, h0, himg]
  repeat' first
  | rfl
  | (rcases mediaFinish_trace (stripTrailingSlash (jsToString siteUrl))
      (getWpAuthHeader (jsToString username) (jsToString appPassword)) title _ _ _
      with h | ⟨p, h⟩ <;> rw [h] <;> rfl)
  | split

/-- Past validation, the first request traced by the media handler is always
the image fetch. -/
theorem mediaFlow_image_req
    (siteUrl username appPassword imageUrl title : Option String) (env : Nat → FetchOutcome)
    (hsu : jsTruthyS siteUrl = true) (hun : jsTruthyS username = true)
    (hpw : jsTruthyS appPassword = true) (hiu : jsTruthyS imageUrl = true)
    (hurl : (jsStartsWith (jsToString imageUrl) "http://" ||
             jsStartsWith (jsToString imageUrl) "https://") = true) :
    ((mediaFlow siteUrl username appPassword imageUrl title env).1).head? =
      some (mediaImageReq (jsToString imageUrl)) := by
  simp only [mediaFlow, hsu, hun, hpw, hiu, Bool.and_self, if_true, hurl]
  repeat' first
  | rfl
  | (rcases mediaFinish_trace (stripTrailingSlash (jsToString siteUrl))
      (getWpAuthHeader (jsToString username) (jsToString appPassword)) title _ _ _
      with h | ⟨p, h⟩ <;> rw [h] <;> rfl)
  | split

/-- Past validation, the first request traced by the posts handler is always
the primary create request. -/
theorem postsFlow_first_req
    (siteUrl username appPassword title content : Option String)
    (featuredImageId categoryId : Option Int) (env : Nat → FetchOutcome)
    (hsu : jsTruthyS siteUrl = true) (hun : jsTruthyS username = true)
    (hpw : jsTruthyS appPassword = true) (hti : jsTruthyS title = true)
    (hco : jsTruthyS content = true) :
    ((postsFlow siteUrl username appPassword title content featuredImageId categoryId env).1).head? =
      some (postCreateReq (stripTrailingSlash (jsToString siteUrl))
        (getWpAuthHeader (jsToString username) (jsToString appPassword))
        (buildPostData (jsToString title) (jsToString content) featuredImageId categoryId)) := by
  simp only [postsFlow, hsu, hun, hpw, hti, hco, Bool.and_self, if_true]
  repeat' first
  | rfl
  | (rw [postsFinish_trace])
  | split

/-! ## Claim theorems -/

/-- Transcription of the claim C6 wording: derive the filename by STRIPPING
all characters outside `[A-Za-z0-9]` (that is, removing them), truncating to
50 characters, and appending the fixed suffix and extension. -/
def specStripOutside : List Char → List Char
  | [] => []
  | c :: cs =>
    if (decide ('a' ≤ c) && decide (c ≤ 'z')) ||
       (decide ('A' ≤ c) && decide (c ≤ 'Z')) ||
       (decide ('0' ≤ c) && decide (c ≤ '9')) then c :: specStripOutside cs
    else specStripOutside cs

/-- Filename derived per the claim C6 wording (strip, truncate, suffix). -/
def specStrippedFilename (title : Option String) : String :=
  String.mk ((specStripOutside (jsOrS title "featured-image").data).take 50) ++ "-featured.jpg"

/-- Transcription of the amended C6 wording: REPLACE each character outside
`[A-Za-z0-9]` with a hyphen, truncate to 50 characters, append the fixed
suffix and extension. -/
def specReplaceOutside : List Char → List Char
  | [] => []
  | c :: cs =>
    (if (decide ('a' ≤ c) && decide (c ≤ 'z')) ||
        (decide ('A' ≤ c) && decide (c ≤ 'Z')) ||
        (decide ('0' ≤ c) && decide (c ≤ '9')) then c else '-') :: specReplaceOutside cs

/-- Filename derived per the amended C6 wording (replace, truncate, suffix). -/
def specReplacedFilename (title : Option String) : String :=
  String.mk ((specReplaceOutside (jsOrS title "featured-image").data).take 50) ++ "-featured.jpg"

/-- Claim C6 counterexample: the code does not STRIP characters outside
`[A-Za-z0-9]` — for the title "a b" the upload filename is
"a-b-featured.jpg" (space replaced by a hyphen), not the "ab-featured.jpg"
the claim's derivation produces. -/
theorem media_filename_strip_counterexample :
    mediaFilename (some "a b") = "a-b-featured.jpg" ∧
    specStrippedFilename (some "a b") = "ab-featured.jpg" ∧
    mediaFilename (some "a b") ≠ specStrippedFilename (some "a b") := by
  refine ⟨by decide, by decide, by decide⟩

/-- Claim C6 as amended: the filename sent upstream is derived by taking the
supplied title (or the fixed fallback "featured-image" when absent or empty),
REPLACING each character outside `[A-Za-z0-9]` with a hyphen, truncating the
result to 50 characters, and appending the fixed "-featured" suffix plus the
fixed ".jpg" extension; and the declared content type of the uploaded file is
always image/jpeg regardless of the source image's actual format. -/
theorem media_filename_replace_amended
    (t : Option String)
    (siteUrl username appPassword imageUrl title : Option String) (env : Nat → FetchOutcome)
    (hsu : jsTruthyS siteUrl = true) (hun : jsTruthyS username = true)
    (hpw : jsTruthyS appPassword = true) (hiu : jsTruthyS imageUrl = true)
    (hurl : (jsStartsWith (jsToString imageUrl) "http://" ||
             jsStartsWith (jsToString imageUrl) "https://") = true)
    (imgR : Response) (h0 : env 0 = .resp imgR) (himg : imgR.ok = true) :
    mediaFilename t = specReplacedFilename t ∧
    ((mediaFlow siteUrl username appPassword imageUrl title env).1)[1]?.map Request.body =
      some (.multipart 0 (mediaFilename title) "image/jpeg") := by
  constructor
  · have hmap : ∀ l : List Char, specReplaceOutside l = l.map sanitizeChar := by
      intro l
      induction l with
      | nil => rfl
      | cons c cs ih => simp [specReplaceOutside, List.map, sanitizeChar, ih]
    unfold mediaFilename specReplacedFilename safeTitle
    rw [hmap]
  · rw [mediaFlow_upload_req siteUrl username appPassword imageUrl title env
      hsu hun hpw hiu hurl imgR h0 himg]
    rfl

/-- Witness for the amended C6 at concrete inputs. -/
theorem media_filename_replace_amended_witness :
    mediaFilename (some "My Cat!") = specReplacedFilename (some "My Cat!") ∧
    ((mediaFlow (some "https://example.com") (some "u") (some "p")
        (some "https://img.test/cat.png") (some "My Cat!")
        (fun n => if n = 0 then .resp imgRespOk else .netErr "x")).1)[1]?.map Request.body =
      some (.multipart 0 (mediaFilename (some "My Cat!")) "image/jpeg") :=
  media_filename_replace_amended (some "My Cat!")
    (some "https://example.com") (some "u") (some "p") (some "https://img.test/cat.png")
    (some "My Cat!") (fun n => if n = 0 then .resp imgRespOk else .netErr "x")
    (by decide) (by decide) (by decide) (by decide) (by decide)
    imgRespOk rfl (by decide)

/-- Claim C9: for every pair of strings (username, appPassword), including
empty strings, `getWpAuthHeader` returns `"Basic "` followed by the base64
encoding of the UTF-8 byte sequence of `username`, a literal colon, and
`appPassword`, and base64-decoding that suffix yields back exactly that byte
sequence.  The function is total (pure, no failure mode). -/
theorem getWpAuthHeader_base64_roundtrip (username appPassword : String) :
    getWpAuthHeader username appPassword =
      "Basic " ++ String.mk (base64Encode (utf8Bytes (username ++ ":" ++ appPassword))) ∧
    base64Decode (base64Encode (utf8Bytes (username ++ ":" ++ appPassword))) =
      some (utf8Bytes (username ++ ":" ++ appPassword)) := by
  refine ⟨rfl, ?_⟩
  exact base64_roundtrip _ (utf8Bytes_lt _)

/-- Witness for C9 at username `"user"`, appPassword `"pass"`. -/
theorem getWpAuthHeader_base64_roundtrip_witness :
    getWpAuthHeader "user" "pass" =
      "Basic " ++ String.mk (base64Encode (utf8Bytes ("user" ++ ":" ++ "pass"))) ∧
    base64Decode (base64Encode (utf8Bytes ("user" ++ ":" ++ "pass"))) =
      some (utf8Bytes ("user" ++ ":" ++ "pass")) :=
  getWpAuthHeader_base64_roundtrip "user" "pass"

/-- Claim C4: when the category search succeeds and the returned list contains
an entry whose name matches the requested name case-insensitively (the first
such entry, per `Array.prototype.find`), the resolver returns that entry's
`{id, name}` immediately: the trace consists of the single search request and
no create request is issued. -/
theorem categories_existing_match_no_create
    (siteUrl username appPassword : Option String) (nm : String)
    (env : Nat → FetchOutcome)
    (hsu : jsTruthyS siteUrl = true) (hun : jsTruthyS username = true)
    (hpw : jsTruthyS appPassword = true)
    (sr : Response) (h0 : env 0 = .resp sr) (hok : sr.ok = true)
    (cats : List WpCat) (hbody : sr.body = .arr cats)
    (c : WpCat) (hfind : cats.find? (fun x => lowerStr x.name == lowerStr nm) = some c) :
    categoriesFlow siteUrl username appPassword (some nm) env =
      ([catSearchReq (stripTrailingSlash (jsToString siteUrl))
          (getWpAuthHeader (jsToString username) (jsToString appPassword))
          (encodeURIComponent nm)],
       .okJ (some c.id) (some c.name)) := by
  match cats, hfind with
  | c0 :: cs, hfind =>
    simp [categoriesFlow, hsu, hun, hpw, h0, hok, hbody, hfind, jsToString]

/-- Witness for C4: an existing category named "Travel" resolves a request for
"travel" without a create call. -/
theorem categories_existing_match_no_create_witness :
    categoriesFlow (some "https://example.com") (some "u") (some "p") (some "travel")
        (fun _ => .resp { status := 200, location := none,
                          body := .arr [{ id := 7, name := "Travel" }] }) =
      ([catSearchReq (stripTrailingSlash (jsToString (some "https://example.com")))
          (getWpAuthHeader (jsToString (some "u")) (jsToString (some "p")))
          (encodeURIComponent "travel")],
       .okJ (some 7) (some "Travel")) :=
  categories_existing_match_no_create (some "https://example.com") (some "u") (some "p")
    "travel" _ (by decide) (by decide) (by decide)
    { status := 200, location := none, body := .arr [{ id := 7, name := "Travel" }] }
    rfl (by decide) [{ id := 7, name := "Travel" }] rfl
    { id := 7, name := "Travel" } (by decide)

/-- Claim C5 counterexample: a network-level failure of the category search
(the fetch promise rejects) does NOT proceed to the creation step — the
handler's catch block answers 500 after issuing only the single search
request, so no create request is ever made. -/
theorem categories_search_netErr_aborts :
    categoriesFlow (some "https://example.com") (some "u") (some "p") (some "travel")
        (fun _ => .netErr "connect ECONNREFUSED") =
      ([catSearchReq "https://example.com" (getWpAuthHeader "u" "p") "travel"],
       .err 500 "connect ECONNREFUSED") := by
  decide

/-- Claim C5 as amended: a non-2xx response to the category search is
non-fatal — the resolver proceeds to the creation step exactly as if the
category had not been found (the trace is the search request followed by the
create request, whatever the create outcome); a network-level error of the
search, by contrast, aborts the operation with a 500 error and no create
request. -/
theorem categories_search_failure_behaviour
    (siteUrl username appPassword categoryName : Option String)
    (env : Nat → FetchOutcome) (sr : Response) (m : String)
    (hsu : jsTruthyS siteUrl = true) (hun : jsTruthyS username = true)
    (hpw : jsTruthyS appPassword = true) :
    (env 0 = .resp sr → sr.ok = false →
      (categoriesFlow siteUrl username appPassword categoryName env).1 =
        [catSearchReq (stripTrailingSlash (jsToString siteUrl))
           (getWpAuthHeader (jsToString username) (jsToString appPassword))
           (encodeURIComponent (jsToString categoryName)),
         catCreateReq (stripTrailingSlash (jsToString siteUrl))
           (getWpAuthHeader (jsToString username) (jsToString appPassword))
           categoryName]) ∧
    (env 0 = .netErr m →
      categoriesFlow siteUrl username appPassword categoryName env =
        ([catSearchReq (stripTrailingSlash (jsToString siteUrl))
            (getWpAuthHeader (jsToString username) (jsToString appPassword))
            (encodeURIComponent (jsToString categoryName))],
         .err 500 m)) := by
  constructor
  · intro h0 hok
    simp only [categoriesFlow, hsu, hun, hpw, Bool.and_self, if_true, h0]
    simp only [hok, Bool.false_eq_true, if_false]
    rw [catCreate_trace]
    rfl
  · intro h0
    simp [categoriesFlow, hsu, hun, hpw, h0]

/-- Witness for the amended C5: a concrete 403 search response leads to a
create request, while a concrete network error yields the 500 result with no
create request. -/
theorem categories_search_failure_behaviour_witness :
    (categoriesFlow (some "https://example.com") (some "u") (some "p") (some "travel")
        env403).1 =
      [catSearchReq (stripTrailingSlash (jsToString (some "https://example.com")))
         (getWpAuthHeader (jsToString (some "u")) (jsToString (some "p")))
         (encodeURIComponent (jsToString (some "travel"))),
       catCreateReq (stripTrailingSlash (jsToString (some "https://example.com")))
         (getWpAuthHeader (jsToString (some "u")) (jsToString (some "p")))
         (some "travel")] ∧
    categoriesFlow (some "https://example.com") (some "u") (some "p") (some "travel")
        envDown =
      ([catSearchReq (stripTrailingSlash (jsToString (some "https://example.com")))
          (getWpAuthHeader (jsToString (some "u")) (jsToString (some "p")))
          (encodeURIComponent (jsToString (some "travel")))],
       .err 500 "down") :=
  ⟨(categories_search_failure_behaviour (some "https://example.com") (some "u") (some "p")
      (some "travel") env403 resp403 "unused" (by decide) (by decide) (by decide)).1
      rfl (by decide),
   (categories_search_failure_behaviour (some "https://example.com") (some "u") (some "p")
      (some "travel") envDown resp403 "down" (by decide) (by decide) (by decide)).2 rfl⟩

/-- Claim C3 counterexample: the category resolver does NOT issue its upstream
requests without automatic redirect following — on a concrete resolve request
the search fetch is issued with the transport default `redirect: 'follow'`,
not `redirect: 'manual'`. -/
theorem category_search_auto_redirect :
    ((categoriesFlow (some "https://example.com") (some "u") (some "p") (some "travel")
        envDown).1.head?.map Request.redirect) = some RedirectMode.follow ∧
    ((categoriesFlow (some "https://example.com") (some "u") (some "p") (some "travel")
        envDown).1.head?.map Request.redirect) ≠ some RedirectMode.manual := by
  constructor
  · decide
  · decide

/-- Claim C3 as amended: only the primary media-upload and post-creation
requests are issued without automatic redirect following (`redirect:
'manual'`); every request issued by the category resolver, as well as the
image fetch (the media trace's first request, issued with `redirect:
'follow'`), the redirect follow-up requests and the metadata patch, uses
automatic redirect following. -/
theorem redirect_interception_modes
    (csu cun cpw ccn : Option String) (envC : Nat → FetchOutcome)
    (siteUrl username appPassword imageUrl mtitle : Option String) (envM : Nat → FetchOutcome)
    (psu pun ppw ptitle pcontent : Option String) (fid cid : Option Int)
    (envP : Nat → FetchOutcome)
    (hsu : jsTruthyS siteUrl = true) (hun : jsTruthyS username = true)
    (hpw : jsTruthyS appPassword = true) (hiu : jsTruthyS imageUrl = true)
    (hurl : (jsStartsWith (jsToString imageUrl) "http://" ||
             jsStartsWith (jsToString imageUrl) "https://") = true)
    (imgR : Response) (h0 : envM 0 = .resp imgR) (himg : imgR.ok = true)
    (hpsu : jsTruthyS psu = true) (hpun : jsTruthyS pun = true)
    (hppw : jsTruthyS ppw = true) (hpti : jsTruthyS ptitle = true)
    (hpco : jsTruthyS pcontent = true) :
    (∀ r ∈ (categoriesFlow csu cun cpw ccn envC).1, r.redirect = RedirectMode.follow) ∧
    (((mediaFlow siteUrl username appPassword imageUrl mtitle envM).1).head? =
      some (mediaImageReq (jsToString imageUrl))) ∧
    (((mediaFlow siteUrl username appPassword imageUrl mtitle envM).1).head?.map
        Request.redirect = some RedirectMode.follow) ∧
    (∀ u2, (mediaImageReq u2).redirect = RedirectMode.follow) ∧
    (((mediaFlow siteUrl username appPassword imageUrl mtitle envM).1)[1]?.map
        Request.redirect = some RedirectMode.manual) ∧
    (((postsFlow psu pun ppw ptitle pcontent fid cid envP).1).head?.map
        Request.redirect = some RedirectMode.manual) ∧
    (∀ loc a fn, (mediaFollowReq loc a fn).redirect = RedirectMode.follow) ∧
    (∀ loc a pd, (postFollowReq loc a pd).redirect = RedirectMode.follow) ∧
    (∀ b a mid t, (mediaPatchReq b a mid t).redirect = RedirectMode.follow) := by
  refine ⟨?_, ?_, ?_, fun _ => rfl, ?_, ?_, fun _ _ _ => rfl, fun _ _ _ => rfl,
    fun _ _ _ _ => rfl⟩
  · intro r hr
    rcases categoriesFlow_trace_cases csu cun cpw ccn envC with h | h | h <;> rw [h] at hr
    · simp at hr
    · simp at hr
      rw [hr]; rfl
    · simp at hr
      rcases hr with hr | hr <;> rw [hr] <;> rfl
  · exact mediaFlow_image_req siteUrl username appPassword imageUrl mtitle envM
      hsu hun hpw hiu hurl
  · rw [mediaFlow_image_req siteUrl username appPassword imageUrl mtitle envM
      hsu hun hpw hiu hurl]
    rfl
  · rw [mediaFlow_upload_req siteUrl username appPassword imageUrl mtitle envM
      hsu hun hpw hiu hurl imgR h0 himg]
    rfl
  · rw [postsFlow_first_req psu pun ppw ptitle pcontent fid cid envP
      hpsu hpun hppw hpti hpco]
    rfl

/-- Witness for the amended C3 at concrete inputs. -/
theorem redirect_interception_modes_witness :
    (∀ r ∈ (categoriesFlow (some "https://example.com") (some "u") (some "p") (some "travel")
        envDown).1, r.redirect = RedirectMode.follow) ∧
    (((mediaFlow (some "https://example.com") (some "u") (some "p")
        (some "https://img.test/cat.png") (some "My Cat")
        (fun n => if n = 0 then .resp imgRespOk else .netErr "x")).1).head? =
      some (mediaImageReq (jsToString (some "https://img.test/cat.png")))) ∧
    (((mediaFlow (some "https://example.com") (some "u") (some "p")
        (some "https://img.test/cat.png") (some "My Cat")
        (fun n => if n = 0 then .resp imgRespOk else .netErr "x")).1).head?.map
        Request.redirect = some RedirectMode.follow) ∧
    (∀ u2, (mediaImageReq u2).redirect = RedirectMode.follow) ∧
    (((mediaFlow (some "https://example.com") (some "u") (some "p")
        (some "https://img.test/cat.png") (some "My Cat")
        (fun n => if n = 0 then .resp imgRespOk else .netErr "x")).1)[1]?.map
        Request.redirect = some RedirectMode.manual) ∧
    (((postsFlow (some "https://example.com") (some "u") (some "p") (some "Hello")
        (some "<p>W</p>") none none envDown).1).head?.map
        Request.redirect = some RedirectMode.manual) ∧
    (∀ loc a fn, (mediaFollowReq loc a fn).redirect = RedirectMode.follow) ∧
    (∀ loc a pd, (postFollowReq loc a pd).redirect = RedirectMode.follow) ∧
    (∀ b a mid t, (mediaPatchReq b a mid t).redirect = RedirectMode.follow) :=
  redirect_interception_modes (some "https://example.com") (some "u") (some "p")
    (some "travel") envDown
    (some "https://example.com") (some "u") (some "p") (some "https://img.test/cat.png")
    (some "My Cat") (fun n => if n = 0 then .resp imgRespOk else .netErr "x")
    (some "https://example.com") (some "u") (some "p") (some "Hello") (some "<p>W</p>")
    none none envDown
    (by decide) (by decide) (by decide) (by decide) (by decide)
    imgRespOk rfl (by decide)
    (by decide) (by decide) (by decide) (by decide) (by decide)

/-- Claim C10: the categories handler validates only siteUrl, username and
appPassword.  With those three truthy and `categoryName` missing, the request
is not rejected by validation: the upstream category search is still issued as
the first upstream request, with the missing name interpolated into the search
URL as the literal string "undefined". -/
theorem categories_missing_name_still_searches
    (siteUrl username appPassword : Option String) (env : Nat → FetchOutcome)
    (hsu : jsTruthyS siteUrl = true) (hun : jsTruthyS username = true)
    (hpw : jsTruthyS appPassword = true) :
    encodeURIComponent (jsToString (none : Option String)) = "undefined" ∧
    (categoriesFlow siteUrl username appPassword none env).1.head? =
      some (catSearchReq (stripTrailingSlash (jsToString siteUrl))
        (getWpAuthHeader (jsToString username) (jsToString appPassword)) "undefined") := by
  refine ⟨by decide, ?_⟩
  have he : encodeURIComponent (jsToString (none : Option String)) = "undefined" := by decide
  simp only [categoriesFlow, hsu, hun, hpw, Bool.and_self, if_true, he]
  repeat' first
  | rfl
  | (rw [catCreate_trace]; simp)
  | split

/-- Witness for C10 with concrete credentials and a failing upstream. -/
theorem categories_missing_name_still_searches_witness :
    encodeURIComponent (jsToString (none : Option String)) = "undefined" ∧
    (categoriesFlow (some "https://example.com") (some "u") (some "p") none
        (fun _ => .netErr "down")).1.head? =
      some (catSearchReq (stripTrailingSlash (jsToString (some "https://example.com")))
        (getWpAuthHeader (jsToString (some "u")) (jsToString (some "p"))) "undefined") :=
  categories_missing_name_still_searches (some "https://example.com") (some "u") (some "p")
    (fun _ => .netErr "down") (by decide) (by decide) (by decide)

end TProxy

namespace TProxy

/-- Claim C8: the payload sent upstream by the posts handler always carries
status "draft"; it carries featured_media exactly when featuredImageId is
truthy (with that id) and categories = [categoryId] exactly when categoryId is
truthy; absent optional fields are omitted from the payload entirely (there is
no null entry), and the first request the handler issues carries exactly this
payload. -/
theorem post_draft_payload
    (t c : String) (f cid : Option Int)
    (siteUrl username appPassword title content : Option String)
    (featuredImageId categoryId : Option Int) (env : Nat → FetchOutcome)
    (hsu : jsTruthyS siteUrl = true) (hun : jsTruthyS username = true)
    (hpw : jsTruthyS appPassword = true) (hti : jsTruthyS title = true)
    (hco : jsTruthyS content = true) :
    ((buildPostData t c f cid).lookup "status" = some (.str "draft")) ∧
    (jsTruthyI f = false → (buildPostData t c f cid).lookup "featured_media" = none) ∧
    (∀ n : Int, f = some n → n ≠ 0 →
      (buildPostData t c f cid).lookup "featured_media" = some (.num n)) ∧
    (jsTruthyI cid = false → (buildPostData t c f cid).lookup "categories" = none) ∧
    (∀ n : Int, cid = some n → n ≠ 0 →
      (buildPostData t c f cid).lookup "categories" = some (.arrI [n])) ∧
    (((postsFlow siteUrl username appPassword title content featuredImageId categoryId
        env).1).head?.map Request.body =
      some (.jsonPayload
        (buildPostData (jsToString title) (jsToString content) featuredImageId categoryId))) := by
  refine ⟨?_, ?_, ?_, ?_, ?_, ?_⟩
  · by_cases hf : jsTruthyI f <;> by_cases hc : jsTruthyI cid <;>
      simp [buildPostData, hf, hc, List.lookup]
  · intro hf
    by_cases hc : jsTruthyI cid <;> simp [buildPostData, hf, hc, List.lookup]
  · intro n hn hne
    have hfm : jsTruthyI (some n) = true := by simp [jsTruthyI, hne]
    by_cases hc : jsTruthyI cid <;> simp [buildPostData, hn, hfm, hc, List.lookup]
  · intro hc
    by_cases hf : jsTruthyI f <;> simp [buildPostData, hf, hc, List.lookup]
  · intro n hn hne
    have hcm : jsTruthyI (some n) = true := by simp [jsTruthyI, hne]
    by_cases hf : jsTruthyI f <;> simp [buildPostData, hn, hcm, hf, List.lookup]
  · rw [postsFlow_first_req siteUrl username appPassword title content featuredImageId
      categoryId env hsu hun hpw hti hco]
    rfl

/-- Witness for C8 at concrete inputs (one optional field present, one absent). -/
theorem post_draft_payload_witness :
    ((buildPostData "T" "C" none (some 3)).lookup "status" = some (.str "draft")) ∧
    (jsTruthyI (none : Option Int) = false →
      (buildPostData "T" "C" none (some 3)).lookup "featured_media" = none) ∧
    (∀ n : Int, (none : Option Int) = some n → n ≠ 0 →
      (buildPostData "T" "C" none (some 3)).lookup "featured_media" = some (.num n)) ∧
    (jsTruthyI (some 3) = false →
      (buildPostData "T" "C" none (some 3)).lookup "categories" = none) ∧
    (∀ n : Int, (some 3 : Option Int) = some n → n ≠ 0 →
      (buildPostData "T" "C" none (some 3)).lookup "categories" = some (.arrI [n])) ∧
    (((postsFlow (some "https://example.com") (some "u") (some "p") (some "T") (some "C")
        none (some 3) envDown).1).head?.map Request.body =
      some (.jsonPayload
        (buildPostData (jsToString (some "T")) (jsToString (some "C")) none (some 3)))) :=
  post_draft_payload "T" "C" none (some 3)
    (some "https://example.com") (some "u") (some "p") (some "T") (some "C")
    none (some 3) envDown
    (by decide) (by decide) (by decide) (by decide) (by decide)

end TProxy

namespace TProxy

/-- A 3xx redirect status is never `ok` (outside 200-299). -/
theorem redirect_status_not_ok (r : Response) (h : isRedirectStatus r.status = true) :
    r.ok = false := by
  have h' : r.status = 301 ∨ r.status = 302 ∨ r.status = 307 ∨ r.status = 308 := by
    simpa [isRedirectStatus, or_assoc] using h
  simp only [Response.ok]
  rcases h' with h' | h' | h' | h' <;> rw [h'] <;> rfl

/-- Error extraction of the media handler on a non-ok final response
(lines 256-271): the upstream status is relayed; a parsed `message` field is
used verbatim when truthy; a body that fails to parse as JSON yields the
templated message carrying the numeric status. -/
theorem mediaFinish_err (b a : String) (t : Option String) (tr : List Request)
    (f : Response) (o : FetchOutcome) (hok : f.ok = false) :
    ∃ msg, mediaFinish b a t tr f o = (tr, .err f.status msg) ∧
      (∀ m, f.body.msgField = some m → m ≠ "" → msg = m) ∧
      (∀ raw, f.body = .notJson raw →
        msg = "Failed to upload media: " ++ toString f.status) := by
  unfold mediaFinish
  simp only [hok, Bool.false_eq_true, if_false]
  rcases hb : f.body with cs | ⟨mg, i, u, l, nmf⟩ | raw
  · refine ⟨_, rfl, ?_, ?_⟩
    · intro m hm
      simp [WireBody.msgField] at hm
    · intro raw hraw
      exact absurd hraw (by simp)
  · refine ⟨_, rfl, ?_, ?_⟩
    · intro m hm hne
      simp only [WireBody.msgField] at hm
      subst hm
      simp [jsOrS, WireBody.msgField, hne]
    · intro raw hraw
      exact absurd hraw (by simp)
  · refine ⟨_, rfl, ?_, ?_⟩
    · intro m hm
      simp [WireBody.msgField] at hm
    · intro raw hraw
      rfl

/-- Error extraction of the posts handler on a non-ok final response
(lines 364-378). -/
theorem postsFinish_err (b : String) (tr : List Request) (f : Response)
    (hok : f.ok = false) :
    ∃ msg, postsFinish b tr f = (tr, .err f.status msg) ∧
      (∀ m, f.body.msgField = some m → m ≠ "" → msg = m) ∧
      (∀ raw, f.body = .notJson raw →
        msg = "Failed to create post: " ++ toString f.status) := by
  unfold postsFinish
  simp only [hok, Bool.false_eq_true, if_false]
  rcases hb : f.body with cs | ⟨mg, i, u, l, nmf⟩ | raw
  · refine ⟨_, rfl, ?_, ?_⟩
    · intro m hm
      simp [WireBody.msgField] at hm
    · intro raw hraw
      exact absurd hraw (by simp)
  · refine ⟨_, rfl, ?_, ?_⟩
    · intro m hm hne
      simp only [WireBody.msgField] at hm
      subst hm
      simp [jsOrS, WireBody.msgField, hne]
    · intro raw hraw
      exact absurd hraw (by simp)
  · refine ⟨_, rfl, ?_, ?_⟩
    · intro m hm
      simp [WireBody.msgField] at hm
    · intro raw hraw
      rfl

end TProxy

namespace TProxy

/-- Past validation and a successful image fetch, when the upload response is
not a redirect that carries a location, the media handler reduces to the
finish step applied to the upload response itself, with the trace being the
image fetch followed by the upload request. -/
theorem mediaFlow_finish_noRedirect
    (siteUrl username appPassword imageUrl title : Option String) (env : Nat → FetchOutcome)
    (hsu : jsTruthyS siteUrl = true) (hun : jsTruthyS username = true)
    (hpw : jsTruthyS appPassword = true) (hiu : jsTruthyS imageUrl = true)
    (hurl : (jsStartsWith (jsToString imageUrl) "http://" ||
             jsStartsWith (jsToString imageUrl) "https://") = true)
    (imgR up1 : Response) (h0 : env 0 = .resp imgR) (himg : imgR.ok = true)
    (h1 : env 1 = .resp up1)
    (hcase : isRedirectStatus up1.status = false ∨ up1.location = none) :
    mediaFlow siteUrl username appPassword imageUrl title env =
      mediaFinish (stripTrailingSlash (jsToString siteUrl))
        (getWpAuthHeader (jsToString username) (jsToString appPassword)) title
        [mediaImageReq (jsToString imageUrl),
         mediaUploadReq (stripTrailingSlash (jsToString siteUrl))
           (getWpAuthHeader (jsToString username) (jsToString appPassword))
           (mediaFilename title)]
        up1 (env 2) := by
  rcases hcase with hr | hloc
  · simp [mediaFlow, hsu, hun, hpw, hiu, hurl, h0, himg, h1, hr]
  · by_cases hr : isRedirectStatus up1.status
    · simp [mediaFlow, hsu, hun, hpw, hiu, hurl, h0, himg, h1, hr, hloc]
    · rw [Bool.not_eq_true] at hr
      simp [mediaFlow, hsu, hun, hpw, hiu, hurl, h0, himg, h1, hr]

/-- Past validation and a successful image fetch, when the upload response is
a redirect carrying a location and the follow-up fetch yields a response, the
media handler reduces to the finish step applied to the follow-up response,
with the trace ending in the single follow-up request. -/
theorem mediaFlow_finish_redirect
    (siteUrl username appPassword imageUrl title : Option String) (env : Nat → FetchOutcome)
    (hsu : jsTruthyS siteUrl = true) (hun : jsTruthyS username = true)
    (hpw : jsTruthyS appPassword = true) (hiu : jsTruthyS imageUrl = true)
    (hurl : (jsStartsWith (jsToString imageUrl) "http://" ||
             jsStartsWith (jsToString imageUrl) "https://") = true)
    (imgR up1 up2 : Response) (h0 : env 0 = .resp imgR) (himg : imgR.ok = true)
    (h1 : env 1 = .resp up1) (hr : isRedirectStatus up1.status = true)
    (loc : String) (hloc : up1.location = some loc) (h2 : env 2 = .resp up2) :
    mediaFlow siteUrl username appPassword imageUrl title env =
      mediaFinish (stripTrailingSlash (jsToString siteUrl))
        (getWpAuthHeader (jsToString username) (jsToString appPassword)) title
        [mediaImageReq (jsToString imageUrl),
         mediaUploadReq (stripTrailingSlash (jsToString siteUrl))
           (getWpAuthHeader (jsToString username) (jsToString appPassword))
           (mediaFilename title),
         mediaFollowReq loc
           (getWpAuthHeader (jsToString username) (jsToString appPassword))
           (mediaFilename title)]
        up2 (env 3) := by
  simp [mediaFlow, hsu, hun, hpw, hiu, hurl, h0, himg, h1, hr, hloc, h2]

/-- Past validation, when the create response is not a redirect that carries a
location, the posts handler reduces to the finish step applied to that
response, with the trace being the single create request. -/
theorem postsFlow_finish_noRedirect
    (siteUrl username appPassword title content : Option String)
    (featuredImageId categoryId : Option Int) (env : Nat → FetchOutcome)
    (hsu : jsTruthyS siteUrl = true) (hun : jsTruthyS username = true)
    (hpw : jsTruthyS appPassword = true) (hti : jsTruthyS title = true)
    (hco : jsTruthyS content = true)
    (r1 : Response) (h0 : env 0 = .resp r1)
    (hcase : isRedirectStatus r1.status = false ∨ r1.location = none) :
    postsFlow siteUrl username appPassword title content featuredImageId categoryId env =
      postsFinish (stripTrailingSlash (jsToString siteUrl))
        [postCreateReq (stripTrailingSlash (jsToString siteUrl))
           (getWpAuthHeader (jsToString username) (jsToString appPassword))
           (buildPostData (jsToString title) (jsToString content)
             featuredImageId categoryId)]
        r1 := by
  rcases hcase with hr | hloc
  · simp [postsFlow, hsu, hun, hpw, hti, hco, h0, hr]
  · by_cases hr : isRedirectStatus r1.status
    · simp [postsFlow, hsu, hun, hpw, hti, hco, h0, hr, hloc]
    · rw [Bool.not_eq_true] at hr
      simp [postsFlow, hsu, hun, hpw, hti, hco, h0, hr]

/-- Past validation, when the create response is a redirect carrying a
location and the follow-up fetch yields a response, the posts handler reduces
to the finish step applied to the follow-up response, with the trace ending in
the single follow-up request. -/
theorem postsFlow_finish_redirect
    (siteUrl username appPassword title content : Option String)
    (featuredImageId categoryId : Option Int) (env : Nat → FetchOutcome)
    (hsu : jsTruthyS siteUrl = true) (hun : jsTruthyS username = true)
    (hpw : jsTruthyS appPassword = true) (hti : jsTruthyS title = true)
    (hco : jsTruthyS content = true)
    (r1 r2 : Response) (h0 : env 0 = .resp r1) (hr : isRedirectStatus r1.status = true)
    (loc : String) (hloc : r1.location = some loc) (h1 : env 1 = .resp r2) :
    postsFlow siteUrl username appPassword title content featuredImageId categoryId env =
      postsFinish (stripTrailingSlash (jsToString siteUrl))
        [postCreateReq (stripTrailingSlash (jsToString siteUrl))
           (getWpAuthHeader (jsToString username) (jsToString appPassword))
           (buildPostData (jsToString title) (jsToString content)
             featuredImageId categoryId),
         postFollowReq loc
           (getWpAuthHeader (jsToString username) (jsToString appPassword))
           (buildPostData (jsToString title) (jsToString content)
             featuredImageId categoryId)]
        r2 := by
  simp [postsFlow, hsu, hun, hpw, hti, hco, h0, hr, hloc, h1]

/-- When the final upload response is ok with a truthy id and the title is
truthy, the finish step issues the metadata patch and returns the creation
values, whatever the patch outcome. -/
theorem mediaFinish_ok_patch (b a : String) (t : Option String) (tr : List Request)
    (f : Response) (o : FetchOutcome) (hok : f.ok = true)
    (mg : Option String) (i : Int) (u lk nmf : Option String)
    (hbody : f.body = .obj mg (some i) u lk nmf) (hi : i ≠ 0) (ht : jsTruthyS t = true) :
    mediaFinish b a t tr f o =
      (tr ++ [mediaPatchReq b a (some i) (jsToString t)], .ok (some i) u) := by
  unfold mediaFinish
  simp [hok, hbody, WireBody.idField, WireBody.sourceUrlField, ht, jsTruthyI, hi]

end TProxy

namespace TProxy

/-- Claim C1: when the upload (resp. post-creation) response has status in
{301, 302, 307, 308} and carries a Location header, the handler issues exactly
one follow-up request to that location — same POST method, the original
authorization header explicitly re-attached, and the body rebuilt (a fresh
FormData instance for the upload, the re-serialized payload for the post) —
and when the follow-up response is itself a redirect status it is treated as
the final response: the trace ends at the follow-up request and the handler
answers from that response with its status, following no further redirect. -/
theorem redirect_single_hop
    (siteUrl username appPassword imageUrl mtitle : Option String) (envM : Nat → FetchOutcome)
    (psu pun ppw ptitle pcontent : Option String) (fid cid : Option Int)
    (envP : Nat → FetchOutcome)
    (hsu : jsTruthyS siteUrl = true) (hun : jsTruthyS username = true)
    (hpw : jsTruthyS appPassword = true) (hiu : jsTruthyS imageUrl = true)
    (hurl : (jsStartsWith (jsToString imageUrl) "http://" ||
             jsStartsWith (jsToString imageUrl) "https://") = true)
    (imgR up1 up2 : Response) (hm0 : envM 0 = .resp imgR) (himg : imgR.ok = true)
    (hm1 : envM 1 = .resp up1) (hr1 : isRedirectStatus up1.status = true)
    (locM : String) (hlocM : up1.location = some locM)
    (hm2 : envM 2 = .resp up2) (hr2 : isRedirectStatus up2.status = true)
    (hpsu : jsTruthyS psu = true) (hpun : jsTruthyS pun = true)
    (hppw : jsTruthyS ppw = true) (hpti : jsTruthyS ptitle = true)
    (hpco : jsTruthyS pcontent = true)
    (r1 r2 : Response) (hp0 : envP 0 = .resp r1) (hpr1 : isRedirectStatus r1.status = true)
    (locP : String) (hlocP : r1.location = some locP)
    (hp1 : envP 1 = .resp r2) (hpr2 : isRedirectStatus r2.status = true) :
    (∃ msg, mediaFlow siteUrl username appPassword imageUrl mtitle envM =
       ([mediaImageReq (jsToString imageUrl),
         mediaUploadReq (stripTrailingSlash (jsToString siteUrl))
           (getWpAuthHeader (jsToString username) (jsToString appPassword))
           (mediaFilename mtitle),
         mediaFollowReq locM
           (getWpAuthHeader (jsToString username) (jsToString appPassword))
           (mediaFilename mtitle)],
        MediaResult.err up2.status msg)) ∧
    (∀ l a fn, (mediaFollowReq l a fn).method = "POST" ∧ (mediaFollowReq l a fn).url = l ∧
      (mediaFollowReq l a fn).auth = some a ∧
      (mediaFollowReq l a fn).body = ReqBody.multipart 1 fn "image/jpeg") ∧
    (∀ b a fn, (mediaUploadReq b a fn).method = "POST" ∧
      (mediaUploadReq b a fn).body = ReqBody.multipart 0 fn "image/jpeg") ∧
    (∃ msg, postsFlow psu pun ppw ptitle pcontent fid cid envP =
       ([postCreateReq (stripTrailingSlash (jsToString psu))
           (getWpAuthHeader (jsToString pun) (jsToString ppw))
           (buildPostData (jsToString ptitle) (jsToString pcontent) fid cid),
         postFollowReq locP
           (getWpAuthHeader (jsToString pun) (jsToString ppw))
           (buildPostData (jsToString ptitle) (jsToString pcontent) fid cid)],
        PostResult.err r2.status msg)) ∧
    (∀ l a pd, (postFollowReq l a pd).method = "POST" ∧ (postFollowReq l a pd).url = l ∧
      (postFollowReq l a pd).auth = some a ∧
      (postFollowReq l a pd).body = ReqBody.jsonPayload pd) := by
  have hok2 : up2.ok = false := redirect_status_not_ok up2 hr2
  have hokP : r2.ok = false := redirect_status_not_ok r2 hpr2
  obtain ⟨msgM, hM, _, _⟩ := mediaFinish_err (stripTrailingSlash (jsToString siteUrl))
    (getWpAuthHeader (jsToString username) (jsToString appPassword)) mtitle
    [mediaImageReq (jsToString imageUrl),
     mediaUploadReq (stripTrailingSlash (jsToString siteUrl))
       (getWpAuthHeader (jsToString username) (jsToString appPassword))
       (mediaFilename mtitle),
     mediaFollowReq locM
       (getWpAuthHeader (jsToString username) (jsToString appPassword))
       (mediaFilename mtitle)]
    up2 (envM 3) hok2
  obtain ⟨msgP, hP, _, _⟩ := postsFinish_err (stripTrailingSlash (jsToString psu))
    [postCreateReq (stripTrailingSlash (jsToString psu))
       (getWpAuthHeader (jsToString pun) (jsToString ppw))
       (buildPostData (jsToString ptitle) (jsToString pcontent) fid cid),
     postFollowReq locP
       (getWpAuthHeader (jsToString pun) (jsToString ppw))
       (buildPostData (jsToString ptitle) (jsToString pcontent) fid cid)]
    r2 hokP
  refine ⟨⟨msgM, ?_⟩, fun l a fn => ⟨rfl, rfl, rfl, rfl⟩, fun b a fn => ⟨rfl, rfl⟩,
    ⟨msgP, ?_⟩, fun l a pd => ⟨rfl, rfl, rfl, rfl⟩⟩
  · rw [mediaFlow_finish_redirect siteUrl username appPassword imageUrl mtitle envM
      hsu hun hpw hiu hurl imgR up1 up2 hm0 himg hm1 hr1 locM hlocM hm2, hM]
  · rw [postsFlow_finish_redirect psu pun ppw ptitle pcontent fid cid envP
      hpsu hpun hppw hpti hpco r1 r2 hp0 hpr1 locP hlocP hp1, hP]

/-- A 302 upload/create response redirecting to an alternate host. -/
def resp302 : Response :=
  { status := 302, location := some "https://alt.example.com/upload", body := .notJson "" }

/-- A 301 response (itself a redirect) returned by the follow-up target. -/
def resp301b : Response :=
  { status := 301, location := some "https://loop.example.com/", body := .notJson "moved" }

/-- Media environment for the C1 witness: image ok, upload 302, follow-up 301. -/
def envC1M : Nat → FetchOutcome :=
  fun n => match n with
  | 0 => .resp imgRespOk
  | 1 => .resp resp302
  | _ => .resp resp301b

/-- Posts environment for the C1 witness: create 302, follow-up 301. -/
def envC1P : Nat → FetchOutcome :=
  fun n => match n with
  | 0 => .resp resp302
  | _ => .resp resp301b

/-- Witness for C1 at concrete inputs: one 302 with location, whose follow-up
again answers 301. -/
theorem redirect_single_hop_witness :
    (∃ msg, mediaFlow (some "https://example.com") (some "u") (some "p")
        (some "https://img.test/cat.png") (some "My Cat") envC1M =
       ([mediaImageReq (jsToString (some "https://img.test/cat.png")),
         mediaUploadReq (stripTrailingSlash (jsToString (some "https://example.com")))
           (getWpAuthHeader (jsToString (some "u")) (jsToString (some "p")))
           (mediaFilename (some "My Cat")),
         mediaFollowReq "https://alt.example.com/upload"
           (getWpAuthHeader (jsToString (some "u")) (jsToString (some "p")))
           (mediaFilename (some "My Cat"))],
        MediaResult.err resp301b.status msg)) ∧
    (∀ l a fn, (mediaFollowReq l a fn).method = "POST" ∧ (mediaFollowReq l a fn).url = l ∧
      (mediaFollowReq l a fn).auth = some a ∧
      (mediaFollowReq l a fn).body = ReqBody.multipart 1 fn "image/jpeg") ∧
    (∀ b a fn, (mediaUploadReq b a fn).method = "POST" ∧
      (mediaUploadReq b a fn).body = ReqBody.multipart 0 fn "image/jpeg") ∧
    (∃ msg, postsFlow (some "https://example.com") (some "u") (some "p") (some "Hello")
        (some "<p>W</p>") none none envC1P =
       ([postCreateReq (stripTrailingSlash (jsToString (some "https://example.com")))
           (getWpAuthHeader (jsToString (some "u")) (jsToString (some "p")))
           (buildPostData (jsToString (some "Hello")) (jsToString (some "<p>W</p>")) none none),
         postFollowReq "https://alt.example.com/upload"
           (getWpAuthHeader (jsToString (some "u")) (jsToString (some "p")))
           (buildPostData (jsToString (some "Hello")) (jsToString (some "<p>W</p>")) none none)],
        PostResult.err resp301b.status msg)) ∧
    (∀ l a pd, (postFollowReq l a pd).method = "POST" ∧ (postFollowReq l a pd).url = l ∧
      (postFollowReq l a pd).auth = some a ∧
      (postFollowReq l a pd).body = ReqBody.jsonPayload pd) :=
  redirect_single_hop (some "https://example.com") (some "u") (some "p")
    (some "https://img.test/cat.png") (some "My Cat") envC1M
    (some "https://example.com") (some "u") (some "p") (some "Hello") (some "<p>W</p>")
    none none envC1P
    (by decide) (by decide) (by decide) (by decide) (by decide)
    imgRespOk resp302 resp301b rfl (by decide) rfl (by decide)
    "https://alt.example.com/upload" rfl rfl (by decide)
    (by decide) (by decide) (by decide) (by decide) (by decide)
    resp302 resp301b rfl (by decide) "https://alt.example.com/upload" rfl rfl (by decide)

end TProxy

namespace TProxy

/-- Claim C2: for every non-2xx final upstream response (post-redirect) in the
media-upload and post-creation operations, the handler returns a failure
result — never an exception past this boundary, the embedding being total —
whose HTTP status equals the upstream status; its message is the `message`
field obtained by parsing the upstream body as JSON whenever that field is
present and truthy, and, when the body fails to parse as JSON, the templated
message carrying the numeric status code. -/
theorem upstream_error_relay
    (siteUrl username appPassword imageUrl mtitle : Option String) (envM : Nat → FetchOutcome)
    (psu pun ppw ptitle pcontent : Option String) (fid cid : Option Int)
    (envP : Nat → FetchOutcome)
    (hsu : jsTruthyS siteUrl = true) (hun : jsTruthyS username = true)
    (hpw : jsTruthyS appPassword = true) (hiu : jsTruthyS imageUrl = true)
    (hurl : (jsStartsWith (jsToString imageUrl) "http://" ||
             jsStartsWith (jsToString imageUrl) "https://") = true)
    (imgR up1 finalM : Response) (hm0 : envM 0 = .resp imgR) (himg : imgR.ok = true)
    (hm1 : envM 1 = .resp up1)
    (hfinM : ((isRedirectStatus up1.status = false ∨ up1.location = none) ∧ finalM = up1) ∨
             (∃ loc, isRedirectStatus up1.status = true ∧ up1.location = some loc ∧
               envM 2 = .resp finalM))
    (hnokM : finalM.ok = false)
    (hpsu : jsTruthyS psu = true) (hpun : jsTruthyS pun = true)
    (hppw : jsTruthyS ppw = true) (hpti : jsTruthyS ptitle = true)
    (hpco : jsTruthyS pcontent = true)
    (r1 finalP : Response) (hp0 : envP 0 = .resp r1)
    (hfinP : ((isRedirectStatus r1.status = false ∨ r1.location = none) ∧ finalP = r1) ∨
             (∃ loc, isRedirectStatus r1.status = true ∧ r1.location = some loc ∧
               envP 1 = .resp finalP))
    (hnokP : finalP.ok = false) :
    (∃ tr msg, mediaFlow siteUrl username appPassword imageUrl mtitle envM =
       (tr, MediaResult.err finalM.status msg) ∧
       (∀ m, finalM.body.msgField = some m → m ≠ "" → msg = m) ∧
       (∀ raw, finalM.body = .notJson raw →
         msg = "Failed to upload media: " ++ toString finalM.status)) ∧
    (∃ tr msg, postsFlow psu pun ppw ptitle pcontent fid cid envP =
       (tr, PostResult.err finalP.status msg) ∧
       (∀ m, finalP.body.msgField = some m → m ≠ "" → msg = m) ∧
       (∀ raw, finalP.body = .notJson raw →
         msg = "Failed to create post: " ++ toString finalP.status)) := by
  constructor
  · rcases hfinM with ⟨hcase, hfe⟩ | ⟨loc, hr, hloc, h2⟩
    · subst hfe
      obtain ⟨msg, hM, hmsg1, hmsg2⟩ := mediaFinish_err
        (stripTrailingSlash (jsToString siteUrl))
        (getWpAuthHeader (jsToString username) (jsToString appPassword)) mtitle
        [mediaImageReq (jsToString imageUrl),
         mediaUploadReq (stripTrailingSlash (jsToString siteUrl))
           (getWpAuthHeader (jsToString username) (jsToString appPassword))
           (mediaFilename mtitle)]
        finalM (envM 2) hnokM
      refine ⟨[mediaImageReq (jsToString imageUrl),
        mediaUploadReq (stripTrailingSlash (jsToString siteUrl))
          (getWpAuthHeader (jsToString username) (jsToString appPassword))
          (mediaFilename mtitle)], msg, ?_, hmsg1, hmsg2⟩
      rw [mediaFlow_finish_noRedirect siteUrl username appPassword imageUrl mtitle envM
        hsu hun hpw hiu hurl imgR finalM hm0 himg hm1 hcase, hM]
    · obtain ⟨msg, hM, hmsg1, hmsg2⟩ := mediaFinish_err
        (stripTrailingSlash (jsToString siteUrl))
        (getWpAuthHeader (jsToString username) (jsToString appPassword)) mtitle
        [mediaImageReq (jsToString imageUrl),
         mediaUploadReq (stripTrailingSlash (jsToString siteUrl))
           (getWpAuthHeader (jsToString username) (jsToString appPassword))
           (mediaFilename mtitle),
         mediaFollowReq loc
           (getWpAuthHeader (jsToString username) (jsToString appPassword))
           (mediaFilename mtitle)]
        finalM (envM 3) hnokM
      refine ⟨[mediaImageReq (jsToString imageUrl),
        mediaUploadReq (stripTrailingSlash (jsToString siteUrl))
          (getWpAuthHeader (jsToString username) (jsToString appPassword))
          (mediaFilename mtitle),
        mediaFollowReq loc
          (getWpAuthHeader (jsToString username) (jsToString appPassword))
          (mediaFilename mtitle)], msg, ?_, hmsg1, hmsg2⟩
      rw [mediaFlow_finish_redirect siteUrl username appPassword imageUrl mtitle envM
        hsu hun hpw hiu hurl imgR up1 finalM hm0 himg hm1 hr loc hloc h2, hM]
  · rcases hfinP with ⟨hcase, hfe⟩ | ⟨loc, hr, hloc, h1⟩
    · subst hfe
      obtain ⟨msg, hP, hmsg1, hmsg2⟩ := postsFinish_err
        (stripTrailingSlash (jsToString psu))
        [postCreateReq (stripTrailingSlash (jsToString psu))
           (getWpAuthHeader (jsToString pun) (jsToString ppw))
           (buildPostData (jsToString ptitle) (jsToString pcontent) fid cid)]
        finalP hnokP
      refine ⟨[postCreateReq (stripTrailingSlash (jsToString psu))
        (getWpAuthHeader (jsToString pun) (jsToString ppw))
        (buildPostData (jsToString ptitle) (jsToString pcontent) fid cid)],
        msg, ?_, hmsg1, hmsg2⟩
      rw [postsFlow_finish_noRedirect psu pun ppw ptitle pcontent fid cid envP
        hpsu hpun hppw hpti hpco finalP hp0 hcase, hP]
    · obtain ⟨msg, hP, hmsg1, hmsg2⟩ := postsFinish_err
        (stripTrailingSlash (jsToString psu))
        [postCreateReq (stripTrailingSlash (jsToString psu))
           (getWpAuthHeader (jsToString pun) (jsToString ppw))
           (buildPostData (jsToString ptitle) (jsToString pcontent) fid cid),
         postFollowReq loc
           (getWpAuthHeader (jsToString pun) (jsToString ppw))
           (buildPostData (jsToString ptitle) (jsToString pcontent) fid cid)]
        finalP hnokP
      refine ⟨[postCreateReq (stripTrailingSlash (jsToString psu))
        (getWpAuthHeader (jsToString pun) (jsToString ppw))
        (buildPostData (jsToString ptitle) (jsToString pcontent) fid cid),
        postFollowReq loc
          (getWpAuthHeader (jsToString pun) (jsToString ppw))
          (buildPostData (jsToString ptitle) (jsToString pcontent) fid cid)],
        msg, ?_, hmsg1, hmsg2⟩
      rw [postsFlow_finish_redirect psu pun ppw ptitle pcontent fid cid envP
        hpsu hpun hppw hpti hpco r1 finalP hp0 hr loc hloc h1, hP]

/-- A 400 response whose JSON body carries a message field. -/
def resp400msg : Response :=
  { status := 400, location := none,
    body := .obj (some "Invalid media") none none none none }

/-- Media environment for the C2 witness: image ok, upload 400 with message. -/
def envC2M : Nat → FetchOutcome :=
  fun n => match n with
  | 0 => .resp imgRespOk
  | _ => .resp resp400msg

/-- Posts environment for the C2 witness: create 400 with message. -/
def envC2P : Nat → FetchOutcome :=
  fun _ => .resp resp400msg

/-- Witness for C2 at concrete inputs: a 400 final response with a JSON
message field in both operations. -/
theorem upstream_error_relay_witness :
    (∃ tr msg, mediaFlow (some "https://example.com") (some "u") (some "p")
        (some "https://img.test/cat.png") (some "My Cat") envC2M =
       (tr, MediaResult.err resp400msg.status msg) ∧
       (∀ m, resp400msg.body.msgField = some m → m ≠ "" → msg = m) ∧
       (∀ raw, resp400msg.body = .notJson raw →
         msg = "Failed to upload media: " ++ toString resp400msg.status)) ∧
    (∃ tr msg, postsFlow (some "https://example.com") (some "u") (some "p") (some "Hello")
        (some "<p>W</p>") none none envC2P =
       (tr, PostResult.err resp400msg.status msg) ∧
       (∀ m, resp400msg.body.msgField = some m → m ≠ "" → msg = m) ∧
       (∀ raw, resp400msg.body = .notJson raw →
         msg = "Failed to create post: " ++ toString resp400msg.status)) :=
  upstream_error_relay (some "https://example.com") (some "u") (some "p")
    (some "https://img.test/cat.png") (some "My Cat") envC2M
    (some "https://example.com") (some "u") (some "p") (some "Hello") (some "<p>W</p>")
    none none envC2P
    (by decide) (by decide) (by decide) (by decide) (by decide)
    imgRespOk resp400msg resp400msg rfl (by decide) rfl
    (Or.inl ⟨Or.inl (by decide), rfl⟩) (by decide)
    (by decide) (by decide) (by decide) (by decide) (by decide)
    resp400msg resp400msg rfl (Or.inl ⟨Or.inl (by decide), rfl⟩) (by decide)

end TProxy

namespace TProxy

/-- Claim C7: after a successful media upload whose response carries a truthy
id, if a title was supplied the handler attempts exactly one follow-up
metadata patch (alt text and title, at the media id URL) and swallows its
outcome entirely: the environment beyond the traced prefix — in particular
the patch outcome — is unconstrained, and for every such environment the
overall result is the success value {id, url} taken from the creation
response, the patch request being the single final request of the trace. -/
theorem media_patch_swallowed
    (siteUrl username appPassword imageUrl title : Option String) (env : Nat → FetchOutcome)
    (hsu : jsTruthyS siteUrl = true) (hun : jsTruthyS username = true)
    (hpw : jsTruthyS appPassword = true) (hiu : jsTruthyS imageUrl = true)
    (hurl : (jsStartsWith (jsToString imageUrl) "http://" ||
             jsStartsWith (jsToString imageUrl) "https://") = true)
    (imgR up1 finalR : Response) (h0 : env 0 = .resp imgR) (himg : imgR.ok = true)
    (h1 : env 1 = .resp up1)
    (hfin : ((isRedirectStatus up1.status = false ∨ up1.location = none) ∧ finalR = up1) ∨
            (∃ loc, isRedirectStatus up1.status = true ∧ up1.location = some loc ∧
              env 2 = .resp finalR))
    (hok : finalR.ok = true)
    (mg : Option String) (i : Int) (u lk nmf : Option String)
    (hbody : finalR.body = .obj mg (some i) u lk nmf) (hi : i ≠ 0)
    (hti : jsTruthyS title = true) :
    ∃ base, mediaFlow siteUrl username appPassword imageUrl title env =
      (base ++ [mediaPatchReq (stripTrailingSlash (jsToString siteUrl))
         (getWpAuthHeader (jsToString username) (jsToString appPassword))
         (some i) (jsToString title)],
       MediaResult.ok (some i) u) ∧
      mediaPatchReq (stripTrailingSlash (jsToString siteUrl))
        (getWpAuthHeader (jsToString username) (jsToString appPassword))
        (some i) (jsToString title) ∉ base ∧
      (∀ b a mid t2, (mediaPatchReq b a mid t2).body =
        ReqBody.jsonPayload [("alt_text", JLit.str t2), ("title", JLit.str t2)]) ∧
      (∀ b a t2 (n : Int), (mediaPatchReq b a (some n) t2).url =
        b ++ "/wp-json/wp/v2/media/" ++ toString n) := by
  rcases hfin with ⟨hcase, hfe⟩ | ⟨loc, hr, hloc, h2⟩
  · subst hfe
    refine ⟨[mediaImageReq (jsToString imageUrl),
      mediaUploadReq (stripTrailingSlash (jsToString siteUrl))
        (getWpAuthHeader (jsToString username) (jsToString appPassword))
        (mediaFilename title)], ?_, ?_, fun _ _ _ _ => rfl, fun _ _ _ _ => rfl⟩
    · rw [mediaFlow_finish_noRedirect siteUrl username appPassword imageUrl title env
        hsu hun hpw hiu hurl imgR finalR h0 himg h1 hcase,
        mediaFinish_ok_patch _ _ title _ finalR _ hok mg i u lk nmf hbody hi hti]
    · simp [mediaPatchReq, mediaImageReq, mediaUploadReq]
  · refine ⟨[mediaImageReq (jsToString imageUrl),
      mediaUploadReq (stripTrailingSlash (jsToString siteUrl))
        (getWpAuthHeader (jsToString username) (jsToString appPassword))
        (mediaFilename title),
      mediaFollowReq loc
        (getWpAuthHeader (jsToString username) (jsToString appPassword))
        (mediaFilename title)], ?_, ?_, fun _ _ _ _ => rfl, fun _ _ _ _ => rfl⟩
    · rw [mediaFlow_finish_redirect siteUrl username appPassword imageUrl title env
        hsu hun hpw hiu hurl imgR up1 finalR h0 himg h1 hr loc hloc h2,
        mediaFinish_ok_patch _ _ title _ finalR _ hok mg i u lk nmf hbody hi hti]
    · simp [mediaPatchReq, mediaImageReq, mediaUploadReq, mediaFollowReq]

/-- A 201 creation response carrying id 42 and a source URL. -/
def respCreated : Response :=
  { status := 201, location := none,
    body := .obj none (some 42) (some "https://example.com/x.jpg") none none }

/-- Media environment for the C7 witness: image ok, upload created, then the
patch fetch rejects with a network error (which must be swallowed). -/
def envC7 : Nat → FetchOutcome :=
  fun n => match n with
  | 0 => .resp imgRespOk
  | 1 => .resp respCreated
  | _ => .netErr "patch down"

/-- Witness for C7 at concrete inputs, with the patch call failing. -/
theorem media_patch_swallowed_witness :
    ∃ base, mediaFlow (some "https://example.com") (some "u") (some "p")
        (some "https://img.test/cat.png") (some "My Cat") envC7 =
      (base ++ [mediaPatchReq (stripTrailingSlash (jsToString (some "https://example.com")))
         (getWpAuthHeader (jsToString (some "u")) (jsToString (some "p")))
         (some 42) (jsToString (some "My Cat"))],
       MediaResult.ok (some 42) (some "https://example.com/x.jpg")) ∧
      mediaPatchReq (stripTrailingSlash (jsToString (some "https://example.com")))
        (getWpAuthHeader (jsToString (some "u")) (jsToString (some "p")))
        (some 42) (jsToString (some "My Cat")) ∉ base ∧
      (∀ b a mid t2, (mediaPatchReq b a mid t2).body =
        ReqBody.jsonPayload [("alt_text", JLit.str t2), ("title", JLit.str t2)]) ∧
      (∀ b a t2 (n : Int), (mediaPatchReq b a (some n) t2).url =
        b ++ "/wp-json/wp/v2/media/" ++ toString n) :=
  media_patch_swallowed (some "https://example.com") (some "u") (some "p")
    (some "https://img.test/cat.png") (some "My Cat") envC7
    (by decide) (by decide) (by decide) (by decide) (by decide)
    imgRespOk respCreated respCreated rfl (by decide) rfl
    (Or.inl ⟨Or.inl (by decide), rfl⟩) (by decide)
    none 42 (some "https://example.com/x.jpg") none none rfl (by decide) (by decide)

end TProxy
